import Mathlib

/-!
# LLMLab backend — verification of the specification against the code

Shallow embedding of the LLMLab metering proxy backend (Python/FastAPI) in
Lean 4.  Python floats are modelled as exact rationals (`ℚ`), Python ints as
`ℤ`, byte strings as `List ℕ` (each entry < 256), and the database as explicit
lists of records.  Each definition is translated from the named source
function; theorems check the natural-language specification.
-/

set_option linter.unusedVariables false

namespace LLMLab

/-! ## Rounding

Python's built-in `round(x, 6)` rounds to six decimal places with ties broken
to the even integer (banker's rounding).  We model it exactly on `ℚ`. -/

/-- Round a rational to the nearest integer, ties to even
(the tie-breaking rule of Python's `round`). -/
def roundHalfEven (q : ℚ) : ℤ :=
  if q - (⌊q⌋ : ℚ) < 1/2 then ⌊q⌋
  else if 1/2 < q - (⌊q⌋ : ℚ) then ⌊q⌋ + 1
  else if ⌊q⌋ % 2 = 0 then ⌊q⌋ else ⌊q⌋ + 1

/-- Python `round(q, 6)`: round to six decimal places. -/
def roundTo6 (q : ℚ) : ℚ :=
  (roundHalfEven (q * 1000000) : ℚ) / 1000000

/-! ## Price tables — `src/backend/providers/{openai,anthropic,google}_provider.py`

Each table maps a model name to `(input_rate, output_rate)` in USD per
million tokens; an unknown model falls back to the provider's DEFAULT pair. -/

/-- `OPENAI_PRICING` from `openai_provider.py` (USD per 1M tokens). -/
def OPENAI_PRICING : List (String × ℚ × ℚ) :=
  [ ("gpt-4o", 2.50, 10.00),
    ("gpt-4o-2024-11-20", 2.50, 10.00),
    ("gpt-4o-2024-08-06", 2.50, 10.00),
    ("gpt-4o-2024-05-13", 5.00, 15.00),
    ("gpt-4o-mini", 0.15, 0.60),
    ("gpt-4o-mini-2024-07-18", 0.15, 0.60),
    ("gpt-4-turbo", 10.00, 30.00),
    ("gpt-4-turbo-2024-04-09", 10.00, 30.00),
    ("gpt-4-turbo-preview", 10.00, 30.00),
    ("gpt-4-1106-preview", 10.00, 30.00),
    ("gpt-4-0125-preview", 10.00, 30.00),
    ("gpt-4", 30.00, 60.00),
    ("gpt-4-0613", 30.00, 60.00),
    ("gpt-4-32k", 60.00, 120.00),
    ("gpt-4-32k-0613", 60.00, 120.00),
    ("gpt-3.5-turbo", 0.50, 1.50),
    ("gpt-3.5-turbo-0125", 0.50, 1.50),
    ("gpt-3.5-turbo-1106", 1.00, 2.00),
    ("gpt-3.5-turbo-instruct", 1.50, 2.00),
    ("o1", 15.00, 60.00),
    ("o1-2024-12-17", 15.00, 60.00),
    ("o1-preview", 15.00, 60.00),
    ("o1-preview-2024-09-12", 15.00, 60.00),
    ("o1-mini", 3.00, 12.00),
    ("o1-mini-2024-09-12", 3.00, 12.00),
    ("o3-mini", 1.10, 4.40),
    ("o3-mini-2025-01-31", 1.10, 4.40),
    ("text-embedding-3-small", 0.02, 0.00),
    ("text-embedding-3-large", 0.13, 0.00),
    ("text-embedding-ada-002", 0.10, 0.00) ]

/-- `DEFAULT_OPENAI_PRICING` from `openai_provider.py`. -/
def DEFAULT_OPENAI_PRICING : ℚ × ℚ := (10.00, 30.00)

/-- `ANTHROPIC_PRICING` from `anthropic_provider.py` (USD per 1M tokens). -/
def ANTHROPIC_PRICING : List (String × ℚ × ℚ) :=
  [ ("claude-3-5-sonnet-20241022", 3.00, 15.00),
    ("claude-3-5-sonnet-latest", 3.00, 15.00),
    ("claude-3-5-sonnet-20240620", 3.00, 15.00),
    ("claude-3-5-haiku-20241022", 0.80, 4.00),
    ("claude-3-5-haiku-latest", 0.80, 4.00),
    ("claude-3-opus-20240229", 15.00, 75.00),
    ("claude-3-opus-latest", 15.00, 75.00),
    ("claude-3-sonnet-20240229", 3.00, 15.00),
    ("claude-3-haiku-20240307", 0.25, 1.25),
    ("claude-2.1", 8.00, 24.00),
    ("claude-2.0", 8.00, 24.00),
    ("claude-instant-1.2", 0.80, 2.40) ]

/-- `DEFAULT_ANTHROPIC_PRICING` from `anthropic_provider.py`. -/
def DEFAULT_ANTHROPIC_PRICING : ℚ × ℚ := (3.00, 15.00)

/-- `GOOGLE_PRICING` from `google_provider.py` (USD per 1M tokens). -/
def GOOGLE_PRICING : List (String × ℚ × ℚ) :=
  [ ("gemini-2.0-flash", 0.10, 0.40),
    ("gemini-2.0-flash-001", 0.10, 0.40),
    ("gemini-1.5-pro", 1.25, 5.00),
    ("gemini-1.5-pro-002", 1.25, 5.00),
    ("gemini-1.5-pro-001", 1.25, 5.00),
    ("gemini-1.5-flash", 0.075, 0.30),
    ("gemini-1.5-flash-002", 0.075, 0.30),
    ("gemini-1.5-flash-001", 0.075, 0.30),
    ("gemini-1.5-flash-8b", 0.0375, 0.15),
    ("gemini-1.5-flash-8b-001", 0.0375, 0.15),
    ("gemini-1.0-pro", 0.50, 1.50),
    ("gemini-pro", 0.50, 1.50),
    ("text-embedding-004", 0.00, 0.00) ]

/-- `DEFAULT_GOOGLE_PRICING` from `google_provider.py`. -/
def DEFAULT_GOOGLE_PRICING : ℚ × ℚ := (1.25, 5.00)

/-- The three provider adapters. -/
inductive Provider
  | openai
  | anthropic
  | google
deriving DecidableEq, Repr

/-- The price table of a provider adapter. -/
def pricingTable : Provider → List (String × ℚ × ℚ)
  | .openai => OPENAI_PRICING
  | .anthropic => ANTHROPIC_PRICING
  | .google => GOOGLE_PRICING

/-- The DEFAULT pricing pair of a provider adapter. -/
def defaultPricing : Provider → ℚ × ℚ
  | .openai => DEFAULT_OPENAI_PRICING
  | .anthropic => DEFAULT_ANTHROPIC_PRICING
  | .google => DEFAULT_GOOGLE_PRICING

/-- `OpenAIProvider.calculate_cost` / `AnthropicProvider.calculate_cost` /
`GoogleProvider.calculate_cost`: all three bodies are identical up to the
table, so they are embedded once, parameterised by the provider:
`pricing = TABLE.get(model, DEFAULT)`, then
`round((input_tokens / 1_000_000) * pricing["input"]
     + (output_tokens / 1_000_000) * pricing["output"], 6)`. -/
def calculate_cost (p : Provider) (model : String)
    (input_tokens output_tokens : ℤ) : ℚ :=
  let pricing := (List.lookup model (pricingTable p)).getD (defaultPricing p)
  let input_cost := ((input_tokens : ℚ) / 1000000) * pricing.1
  let output_cost := ((output_tokens : ℚ) / 1000000) * pricing.2
  roundTo6 (input_cost + output_cost)

/-- The claim's formula, written exactly in the spec's words:
`input_tokens * input_rate / 1_000_000 + output_tokens * output_rate / 1_000_000`
rounded to six decimal places, where `(input_rate, output_rate)` is the
provider's price-table entry for the model, or the provider's DEFAULT pair
when the model is not in the table. -/
def specCost (p : Provider) (model : String)
    (input_tokens output_tokens : ℤ) : ℚ :=
  let rates := (List.lookup model (pricingTable p)).getD (defaultPricing p)
  roundTo6 ((input_tokens : ℚ) * rates.1 / 1000000
    + (output_tokens : ℚ) * rates.2 / 1000000)

/-! ## Budget watcher — `src/backend/alerts.py`, and the budget read endpoint
`get_budgets` in `src/backend/main.py`

Records carry the fields the claims are about; ids are the DB's string
UUIDs. -/

/-- A row of the `budgets` table (fields the watcher reads). -/
structure Budget where
  id : String
  user_id : String
  amount_usd : ℚ
  alert_threshold : ℚ
deriving DecidableEq, Repr

/-- A row of the `webhooks` table (fields the watcher reads). -/
structure Webhook where
  id : String
  user_id : String
  url : String
  event_type : String
  is_active : Bool
deriving DecidableEq, Repr

/-- The two budget alert statuses of `check_and_fire_alerts`. -/
inductive AlertStatus
  | budget_exceeded
  | budget_warning
deriving DecidableEq, Repr

/-- The status string the code compares `webhook.event_type` against. -/
def AlertStatus.name : AlertStatus → String
  | .budget_exceeded => "budget_exceeded"
  | .budget_warning => "budget_warning"

/-- `pct = (current_spend / budget.amount_usd * 100) if budget.amount_usd > 0
else 0` — the guarded percentage computation shared by `alerts.py` and
`get_budgets` in `main.py`. -/
def budgetPct (current_spend amount_usd : ℚ) : ℚ :=
  if 0 < amount_usd then current_spend / amount_usd * 100 else 0

/-- The `if pct >= 100 / elif pct >= threshold / else continue` ladder of
`check_and_fire_alerts`. -/
def alertStatusOf (pct threshold : ℚ) : Option AlertStatus :=
  if 100 ≤ pct then some .budget_exceeded
  else if threshold ≤ pct then some .budget_warning
  else none

/-- The status strings of the `get_budgets` endpoint in `main.py`. -/
inductive BudgetStatus
  | exceeded
  | warning
  | ok
deriving DecidableEq, Repr

/-- The `if pct >= 100 / elif pct >= threshold / else ok` ladder of
`get_budgets`. -/
def budgetEndpointStatus (pct threshold : ℚ) : BudgetStatus :=
  if 100 ≤ pct then .exceeded
  else if threshold ≤ pct then .warning
  else .ok

/-- The dedup tuple `(user_id, budget.id, alert_status)` of `alerts.py`. -/
abbrev FiredKey := String × String × AlertStatus

/-- One webhook POST attempted by the watcher: the dedup tuple it belongs to
and the target URL. -/
structure AlertDispatch where
  key : FiredKey
  url : String
deriving DecidableEq, Repr

/-- The per-budget body of the `for budget in budgets` loop in
`check_and_fire_alerts`: compute `pct`, pick the status, skip tuples already
in the fired set, POST to every active webhook whose `event_type` matches,
then add the tuple to the fired set (the add is unconditional in the source —
it follows the webhook loop no matter how the deliveries went). -/
def alertBudgetStep (user_id : String) (current_spend : ℚ)
    (activeWebhooks : List Webhook)
    (acc : List AlertDispatch × List FiredKey) (budget : Budget) :
    List AlertDispatch × List FiredKey :=
  match alertStatusOf (budgetPct current_spend budget.amount_usd)
      budget.alert_threshold with
  | none => acc
  | some st =>
    if (user_id, budget.id, st) ∈ acc.2 then acc
    else
      (acc.1 ++ (activeWebhooks.filter
          (fun w => w.event_type == st.name)).map
        (fun w => AlertDispatch.mk (user_id, budget.id, st) w.url),
       (user_id, budget.id, st) :: acc.2)

/-- `check_and_fire_alerts(user_id, db)` from `alerts.py`, as a transition on
the module-level `_fired_alerts` set.  Inputs are what the function reads from
the DB (the user's budgets, the 30-day spend, the user's active webhooks) plus
a delivery-outcome oracle `deliveryOk` (URL → success?).  The source wraps
each POST in `try/except` and only logs the outcome, so the oracle does not
influence anything; it is part of the model so that claims about delivery
failures can be stated.  Returns the webhook POSTs attempted and the new
fired set. -/
def check_and_fire_alerts (user_id : String) (budgets : List Budget)
    (current_spend : ℚ) (webhooks : List Webhook)
    (deliveryOk : String → Bool) (fired : List FiredKey) :
    List AlertDispatch × List FiredKey :=
  if budgets = [] then ([], fired)
  else if webhooks.filter (fun w => w.is_active) = [] then ([], fired)
  else budgets.foldl
    (alertBudgetStep user_id current_spend
      (webhooks.filter (fun w => w.is_active)))
    ([], fired)

/-- One invocation's DB-derived inputs, for reasoning about a sequence of
watcher runs within a process lifetime. -/
structure AlertCall where
  user_id : String
  budgets : List Budget
  current_spend : ℚ
  webhooks : List Webhook
  deliveryOk : String → Bool

/-- Run a sequence of watcher invocations, threading the process-local fired
set; returns each invocation's dispatch list and the final set. -/
def runAlerts : List AlertCall → List FiredKey →
    List (List AlertDispatch) × List FiredKey
  | [], fired => ([], fired)
  | c :: cs, fired =>
    let r := check_and_fire_alerts c.user_id c.budgets c.current_spend
      c.webhooks c.deliveryOk fired
    let rest := runAlerts cs r.2
    (r.1 :: rest.1, rest.2)

/-- Does a dispatch list contain a POST for the dedup tuple `k`? -/
def firesKey (ds : List AlertDispatch) (k : FiredKey) : Bool :=
  ds.any (fun d => d.key == k)

/-! ## Proxy pipeline (unary path) — `proxy_openai` in `src/backend/main.py`

The upstream HTTP response is modelled as its status code, raw body bytes and
— when the body parses as JSON — the parsed fields the pipeline reads
(`usage.prompt_tokens`, `usage.completion_tokens`, `model`); `none` models an
unparseable body.  JSON objects are dictionaries, so every field is an
`Option`. -/

/-- The `usage` object of an OpenAI JSON response (`.get` may miss). -/
structure UsageJson where
  prompt_tokens : Option ℤ
  completion_tokens : Option ℤ

/-- The parts of a parsed OpenAI JSON response the pipeline reads. -/
structure ResponseJson where
  usage : Option UsageJson
  model : Option String

/-- `OpenAIProvider.extract_usage`: `usage = data.get("usage", {});
(usage.get("prompt_tokens", 0), usage.get("completion_tokens", 0))`. -/
def extract_usage (j : ResponseJson) : ℤ × ℤ :=
  let usage := j.usage.getD ⟨none, none⟩
  (usage.prompt_tokens.getD 0, usage.completion_tokens.getD 0)

/-- `OpenAIProvider.extract_model`: `data.get("model", request_model)`. -/
def extract_model (j : ResponseJson) (request_model : String) : String :=
  j.model.getD request_model

/-- An upstream HTTP response as the pipeline sees it. -/
structure Upstream where
  status : ℕ
  body : List ℕ
  headers_content_type : String
  json : Option ResponseJson

/-- The `(input_tokens, output_tokens, actual_model)` triple after the
`if response.status_code == 200: try … except: pass` block of `proxy_openai`:
tokens start at `(0, 0)` and the model at the request model, and are
overwritten only on a 200 with parseable JSON. -/
def extractedUsage (u : Upstream) (request_model : String) : ℤ × ℤ × String :=
  if u.status = 200 then
    match u.json with
    | some j => ((extract_usage j).1, (extract_usage j).2,
        extract_model j request_model)
    | none => (0, 0, request_model)
  else (0, 0, request_model)

/-- A row of the `usage_logs` table (fields the claims are about). -/
structure UsageLog where
  user_id : String
  provider : String
  model : String
  input_tokens : ℤ
  output_tokens : ℤ
  cost_usd : ℚ
  latency_ms : ℚ
  cache_hit : Bool
deriving DecidableEq, Repr

/-- The metadata dictionary stored with a cache entry by the
`response_cache.set(...)` call in `proxy_openai` (a dict, so fields are
`Option`; the set site fills every field). -/
structure CacheMetadata where
  input_tokens : Option ℤ
  output_tokens : Option ℤ
  model : Option String
  cost_usd : Option ℚ
  content_type : Option String
  status_code : Option ℕ
deriving DecidableEq, Repr

/-- What the unary cache-miss path of `proxy_openai` produces: the response
passed back to the caller (status and body), the usage-log rows inserted, and
the cache write, if any. -/
structure ProxyResult where
  resp_status : ℕ
  resp_body : List ℕ
  logs : List UsageLog
  cacheWrite : Option (List ℕ × CacheMetadata)

/-- The unary cache-miss tail of `proxy_openai` (`main.py`): forward, extract
usage on a 200, price the call, cache on `status == 200 and (input_tokens > 0
or output_tokens > 0)`, insert a usage log iff `input_tokens > 0 or
output_tokens > 0`, and return the upstream status and body to the caller. -/
def proxy_openai_unary_miss (user_id request_model : String)
    (u : Upstream) (latency_ms : ℚ) : ProxyResult :=
  let e := extractedUsage u request_model
  let input_tokens := e.1
  let output_tokens := e.2.1
  let actual_model := e.2.2
  let cost := calculate_cost .openai actual_model input_tokens output_tokens
  let cacheWrite :=
    if u.status = 200 ∧ (0 < input_tokens ∨ 0 < output_tokens) then
      some (u.body,
        CacheMetadata.mk (some input_tokens) (some output_tokens)
          (some actual_model) (some cost) (some u.headers_content_type)
          (some u.status))
    else none
  let logs :=
    if 0 < input_tokens ∨ 0 < output_tokens then
      [UsageLog.mk user_id "openai" actual_model input_tokens output_tokens
        cost latency_ms false]
    else []
  ProxyResult.mk u.status u.body logs cacheWrite

/-- The cache-hit branch of `proxy_openai`: the usage-log row it inserts,
with every field as in the source (`cost_usd=0.0, latency_ms=0.0,
cache_hit=True`, tokens and model from the cached metadata with the request
model as fallback). -/
def cacheHitLog (user_id request_model : String) (meta : CacheMetadata) :
    UsageLog :=
  UsageLog.mk user_id "openai" (meta.model.getD request_model)
    (meta.input_tokens.getD 0) (meta.output_tokens.getD 0) 0 0 true

/-- The response the cache-hit branch returns to the caller. -/
def cacheHitResult (user_id request_model : String)
    (cached_body : List ℕ) (meta : CacheMetadata) : ProxyResult :=
  ProxyResult.mk (meta.status_code.getD 200) cached_body
    [cacheHitLog user_id request_model meta] none

/-! ## Anomaly detector (token surge) — `detect_anomalies` in
`src/backend/anomaly.py`

`token_values` is the zero-filled list of the window's daily token totals
(oldest first); `today_tokens` is today's total.  The source takes
`hist_tokens = token_values[:-1] if len(token_values) > 1 else token_values`,
then emits a `token_surge` anomaly of severity `info` when
`mean_tokens > 0 and today_tokens > mean_tokens * 3`. -/

/-- `token_values[:-1] if len(token_values) > 1 else token_values`. -/
def tokenSurgeHist (token_values : List ℤ) : List ℤ :=
  if 1 < token_values.length then token_values.dropLast else token_values

/-- `sum(l) / len(l)` as exact rational arithmetic. -/
def meanQ (l : List ℤ) : ℚ :=
  (l.sum : ℚ) / (l.length : ℚ)

/-- The token-surge branch of `detect_anomalies`: the severity of the emitted
anomaly, if one is emitted (the source always uses severity `"info"` here). -/
def token_surge (token_values : List ℤ) (today_tokens : ℤ) : Option String :=
  if tokenSurgeHist token_values ≠ [] then
    if 0 < meanQ (tokenSurgeHist token_values) ∧
        meanQ (tokenSurgeHist token_values) * 3 < (today_tokens : ℚ) then
      some "info"
    else none
  else none

/-! ## Logs listing sort — `get_logs` in `src/backend/main.py` -/

/-- The sortable columns of the logs-listing endpoint. -/
inductive SortField
  | created_at
  | cost_usd
  | input_tokens
  | output_tokens
  | latency_ms
  | provider
  | model
deriving DecidableEq, Repr

/-- Sort direction. -/
inductive SortOrder
  | asc
  | desc
deriving DecidableEq, Repr

/-- `ALLOWED_SORT_FIELDS` from `get_logs`. -/
def ALLOWED_SORT_FIELDS : List (String × SortField) :=
  [ ("created_at", .created_at),
    ("cost_usd", .cost_usd),
    ("input_tokens", .input_tokens),
    ("output_tokens", .output_tokens),
    ("latency_ms", .latency_ms),
    ("provider", .provider),
    ("model", .model) ]

/-- The sort resolution of `get_logs`:
`sort_col = ALLOWED_SORT_FIELDS.get(sort_by, UsageLog.created_at)` followed by
`query.order_by(sort_col.asc() if sort_order == "asc" else sort_col.desc())`. -/
def resolveSort (sort_by sort_order : String) : SortField × SortOrder :=
  let sort_col := (List.lookup sort_by ALLOWED_SORT_FIELDS).getD .created_at
  (sort_col, if sort_order = "asc" then .asc else .desc)

/-! ## Credential store — `create_api_key`, `delete_api_key`,
`get_api_key_by_proxy` in `src/backend/main.py`

The `api_keys` table is a list of rows; `id` and `proxy_key` are DB-unique
(primary key / unique index). -/

/-- A row of the `api_keys` table. -/
structure ApiKey where
  id : String
  user_id : String
  provider : String
  encrypted_key : String
  proxy_key : String
  is_active : Bool
deriving DecidableEq, Repr

/-- The query filter of `create_api_key`'s duplicate check:
`user_id == current_user.id and provider == key_data.provider and
is_active == True`. -/
def activeCredPred (user_id provider : String) (k : ApiKey) : Bool :=
  k.user_id == user_id && k.provider == provider && k.is_active

/-- `create_api_key` (`main.py`): 400 when an active credential for
`(current_user, provider)` exists, otherwise insert a fresh row (`is_active`
defaults to `True` in the model).  `newId` and `newProxyKey` stand for the
generated UUID and proxy key; `encKey` for the encrypted secret. -/
def create_api_key (db : List ApiKey) (current_user provider : String)
    (newId newProxyKey encKey : String) : Except ℕ (List ApiKey × ApiKey) :=
  match db.find? (activeCredPred current_user provider) with
  | some _ => .error 400
  | none =>
    let rec_ := ApiKey.mk newId current_user provider encKey newProxyKey true
    .ok (db ++ [rec_], rec_)

/-- The mutation of `delete_api_key`: flip `is_active` to `False` on the
first row matching `id == key_id and user_id == current_user` (`.first()` on
a unique primary key). -/
def deactivateFirst (db : List ApiKey) (current_user key_id : String) :
    List ApiKey :=
  match db with
  | [] => []
  | k :: rest =>
    if k.id == key_id && k.user_id == current_user then
      { k with is_active := false } :: rest
    else k :: deactivateFirst rest current_user key_id

/-- `delete_api_key` (`main.py`): 404 when no row matches, otherwise
deactivate the matching row. -/
def delete_api_key (db : List ApiKey) (current_user key_id : String) :
    Except ℕ (List ApiKey) :=
  match db.find? (fun k => k.id == key_id && k.user_id == current_user) with
  | none => .error 404
  | some _ => .ok (deactivateFirst db current_user key_id)

/-- `get_api_key_by_proxy` (`main.py`): first row with
`proxy_key == proxy_key and provider == provider and is_active == True`,
else 401. -/
def get_api_key_by_proxy (db : List ApiKey) (proxy_key provider : String) :
    Except ℕ ApiKey :=
  match db.find?
    (fun k => k.proxy_key == proxy_key && k.provider == provider
      && k.is_active) with
  | none => .error 401
  | some k => .ok k

/-- The invariant of the spec: at most one active credential per
`(tenant, provider)`. -/
def activeCredInvariant (db : List ApiKey) : Prop :=
  ∀ t p, (db.filter (activeCredPred t p)).length ≤ 1

/-! ## Response-cache key — `_make_key` in `src/backend/cache.py`

`hashlib.sha256(f"{provider}:{body.hex()}".encode()).hexdigest()`.
Byte strings are `List ℕ` (entries < 256); SHA-256 is implemented in full so
the digests are computable. -/

/-- 2^32, the word modulus of SHA-256. -/
def w32 : ℕ := 4294967296

/-- Right-rotation of a 32-bit word. -/
def rotr (x n : ℕ) : ℕ := ((x >>> n) ||| (x <<< (32 - n))) % w32

/-- Bitwise complement of a 32-bit word. -/
def not32 (x : ℕ) : ℕ := x ^^^ 4294967295

/-- The SHA-256 round constants (FIPS 180-4, written in decimal). -/
def shaK : List ℕ :=
  [ 1116352408, 1899447441, 3049323471, 3921009573,
    961987163, 1508970993, 2453635748, 2870763221,
    3624381080, 310598401, 607225278, 1426881987,
    1925078388, 2162078206, 2614888103, 3248222580,
    3835390401, 4022224774, 264347078, 604807628,
    770255983, 1249150122, 1555081692, 1996064986,
    2554220882, 2821834349, 2952996808, 3210313671,
    3336571891, 3584528711, 113926993, 338241895,
    666307205, 773529912, 1294757372, 1396182291,
    1695183700, 1986661051, 2177026350, 2456956037,
    2730485921, 2820302411, 3259730800, 3345764771,
    3516065817, 3600352804, 4094571909, 275423344,
    430227734, 506948616, 659060556, 883997877,
    958139571, 1322822218, 1537002063, 1747873779,
    1955562222, 2024104815, 2227730452, 2361852424,
    2428436474, 2756734187, 3204031479, 3329325298 ]

/-- The SHA-256 initial hash state. -/
structure Sha8 where
  a : ℕ
  b : ℕ
  c : ℕ
  d : ℕ
  e : ℕ
  f : ℕ
  g : ℕ
  h : ℕ
deriving DecidableEq, Repr

/-- Initial SHA-256 state (FIPS 180-4, written in decimal). -/
def shaInit : Sha8 :=
  ⟨1779033703, 3144134277, 1013904242, 2773480762,
   1359893119, 2600822924, 528734635, 1541459225⟩

/-- SHA-256 small sigma 0. -/
def ssig0 (x : ℕ) : ℕ := rotr x 7 ^^^ rotr x 18 ^^^ (x >>> 3)

/-- SHA-256 small sigma 1. -/
def ssig1 (x : ℕ) : ℕ := rotr x 17 ^^^ rotr x 19 ^^^ (x >>> 10)

/-- SHA-256 big sigma 0. -/
def bsig0 (x : ℕ) : ℕ := rotr x 2 ^^^ rotr x 13 ^^^ rotr x 22

/-- SHA-256 big sigma 1. -/
def bsig1 (x : ℕ) : ℕ := rotr x 6 ^^^ rotr x 11 ^^^ rotr x 25

/-- SHA-256 choice function. -/
def shaCh (e f g : ℕ) : ℕ := (e &&& f) ^^^ (not32 e &&& g)

/-- SHA-256 majority function. -/
def shaMaj (a b c : ℕ) : ℕ := (a &&& b) ^^^ (a &&& c) ^^^ (b &&& c)

/-- Extend the 16-word message schedule by one word. -/
def scheduleStep (ws : List ℕ) : List ℕ :=
  let i := ws.length
  ws ++ [(ws.getD (i - 16) 0 + ssig0 (ws.getD (i - 15) 0)
    + ws.getD (i - 7) 0 + ssig1 (ws.getD (i - 2) 0)) % w32]

/-- Iterate schedule extension `n` times. -/
def scheduleIter : ℕ → List ℕ → List ℕ
  | 0, ws => ws
  | n + 1, ws => scheduleIter n (scheduleStep ws)

/-- One SHA-256 compression round for word `w` and constant `k`. -/
def shaRound (st : Sha8) (wk : ℕ × ℕ) : Sha8 :=
  let t1 := (st.h + bsig1 st.e + shaCh st.e st.f st.g + wk.2 + wk.1) % w32
  let t2 := (bsig0 st.a + shaMaj st.a st.b st.c) % w32
  ⟨(t1 + t2) % w32, st.a, st.b, st.c, (st.d + t1) % w32, st.e, st.f, st.g⟩

/-- Four big-endian bytes to a 32-bit word. -/
def word32OfBytes : List ℕ → ℕ
  | [a, b, c, d] => ((a * 256 + b) * 256 + c) * 256 + d
  | _ => 0

/-- Split a byte list into big-endian 32-bit words. -/
def bytesToWords : List ℕ → List ℕ
  | a :: b :: c :: d :: rest => word32OfBytes [a, b, c, d] :: bytesToWords rest
  | _ => []

/-- Process one 64-byte chunk. -/
def shaChunk (st : Sha8) (chunk : List ℕ) : Sha8 :=
  let ws := scheduleIter 48 (bytesToWords chunk)
  let r := (ws.zip shaK).foldl shaRound st
  ⟨(st.a + r.a) % w32, (st.b + r.b) % w32, (st.c + r.c) % w32,
   (st.d + r.d) % w32, (st.e + r.e) % w32, (st.f + r.f) % w32,
   (st.g + r.g) % w32, (st.h + r.h) % w32⟩

/-- SHA-256 padding: `0x80`, zeros to 56 mod 64, then the 64-bit big-endian
bit length. -/
def shaPad (msg : List ℕ) : List ℕ :=
  let l := msg.length
  let zeros := (119 - l % 64) % 64
  msg ++ [0x80] ++ List.replicate zeros 0
    ++ ([56, 48, 40, 32, 24, 16, 8, 0].map (fun s => (8 * l >>> s) % 256))

/-- Split into 64-byte chunks (structural recursion on a fuel bound so the
kernel can evaluate it; `fuel = l.length` always suffices since every step
consumes 64 bytes). -/
def chunks64Fuel : ℕ → List ℕ → List (List ℕ)
  | 0, _ => []
  | _, [] => []
  | fuel + 1, l => l.take 64 :: chunks64Fuel fuel (l.drop 64)

/-- Split into 64-byte chunks. -/
def chunks64 (l : List ℕ) : List (List ℕ) := chunks64Fuel l.length l

/-- A 32-bit word as four big-endian bytes. -/
def wordBytes (w : ℕ) : List ℕ :=
  [w >>> 24 % 256, w >>> 16 % 256, w >>> 8 % 256, w % 256]

/-- SHA-256 of a byte string, as its 32 digest bytes. -/
def sha256 (msg : List ℕ) : List ℕ :=
  let st := (chunks64 (shaPad msg)).foldl shaChunk shaInit
  wordBytes st.a ++ wordBytes st.b ++ wordBytes st.c ++ wordBytes st.d
    ++ wordBytes st.e ++ wordBytes st.f ++ wordBytes st.g ++ wordBytes st.h

/-- Lowercase ASCII hex digit of a nibble. -/
def hexChar (n : ℕ) : ℕ := if n < 10 then 48 + n else 87 + n

/-- Python `bytes.hex()`: lowercase hex of each byte, as ASCII bytes
(also the byte-level content of `.hexdigest()`). -/
def pyBytesHex (body : List ℕ) : List ℕ :=
  body.flatMap (fun v => [hexChar (v / 16 % 16), hexChar (v % 16)])

/-- `hashlib.sha256(x).hexdigest()` as ASCII bytes. -/
def sha256hex (msg : List ℕ) : List ℕ := pyBytesHex (sha256 msg)

/-- `_make_key(provider, body)` from `cache.py`:
`sha256(f"{provider}:{body.hex()}".encode()).hexdigest()`.  `provider` is the
provider name's ASCII bytes; the f-string interpolation concatenates the
provider bytes, the colon (byte 58) and the ASCII hex encoding of the body. -/
def make_key (provider body : List ℕ) : List ℕ :=
  sha256hex (provider ++ [58] ++ pyBytesHex body)

/-- Modelled from the claim's words (for comparison with `make_key`, not from
the source): the SHA-256 digest of `provider ‖ ':' ‖ body_bytes` — the
provider name, a colon, then the raw request-body bytes. -/
def claimCacheKey (provider body : List ℕ) : List ℕ :=
  sha256hex (provider ++ [58] ++ body)

/-- ASCII bytes of a string (the provider names are ASCII). -/
def asciiBytes (s : String) : List ℕ := s.toList.map Char.toNat

/-! # Theorems -/

/-! ## Helper lemmas -/

theorem floor_le_roundHalfEven (q : ℚ) : ⌊q⌋ ≤ roundHalfEven q := by
  unfold roundHalfEven
  split_ifs <;> omega

theorem roundTo6_pos_of_ge (q : ℚ) (h : 5/4 ≤ q * 1000000) :
    0 < roundTo6 q := by
  unfold roundTo6
  have h1 : (1 : ℤ) ≤ ⌊q * 1000000⌋ := by
    rw [Int.le_floor]
    calc (1 : ℚ) ≤ 5/4 := by norm_num
    _ ≤ q * 1000000 := h
  have h2 : (1 : ℤ) ≤ roundHalfEven (q * 1000000) :=
    le_trans h1 (floor_le_roundHalfEven _)
  have h3 : (1 : ℚ) ≤ (roundHalfEven (q * 1000000) : ℚ) := by
    exact_mod_cast h2
  positivity

/-- Both rates of every provider's DEFAULT pair are at least 5/4 USD/Mtok. -/
theorem defaultPricing_rates_ge (p : Provider) :
    5/4 ≤ (defaultPricing p).1 ∧ 5/4 ≤ (defaultPricing p).2 := by
  cases p <;> constructor <;> norm_num
    [defaultPricing, DEFAULT_OPENAI_PRICING, DEFAULT_ANTHROPIC_PRICING,
     DEFAULT_GOOGLE_PRICING]

/-- Sanity check of the SHA-256 embedding against the standard test vector:
the digest of `"abc"` (bytes 97, 98, 99). -/
theorem sha256_abc_vector :
    sha256hex (asciiBytes "abc")
      = asciiBytes
        "ba7816bf8f01cfea414140de5dae2223b00361a396177a9cb410ff61f20015ad" := by
  decide

/-! ## C1 — pricing -/

/-- C1: for every provider adapter (openai, anthropic, google), every model
name and all non-negative integer token counts,
`calculate_cost(model, input_tokens, output_tokens)` equals
`input_tokens * input_rate / 1_000_000 + output_tokens * output_rate /
1_000_000` rounded to six decimal places, where the rates are the provider's
price-table entry for the model, or the provider's DEFAULT pair when the
model is not in the table; with nonzero tokens an unknown model never prices
to 0. -/
theorem C1_calculate_cost_formula (p : Provider) (model : String)
    (i o : ℤ) :
    calculate_cost p model i o = specCost p model i o ∧
    (List.lookup model (pricingTable p) = none → 0 ≤ i → 0 ≤ o →
      0 < i + o → 0 < calculate_cost p model i o) := by
  constructor
  · unfold calculate_cost specCost
    ring_nf
  · intro hnone hi ho hpos
    simp only [calculate_cost, hnone, Option.getD_none]
    apply roundTo6_pos_of_ge
    obtain ⟨h1, h2⟩ := defaultPricing_rates_ge p
    have hiq : (0 : ℚ) ≤ (i : ℚ) := by exact_mod_cast hi
    have hoq : (0 : ℚ) ≤ (o : ℚ) := by exact_mod_cast ho
    have hsum : (1 : ℚ) ≤ (i : ℚ) + (o : ℚ) := by exact_mod_cast hpos
    nlinarith [mul_le_mul_of_nonneg_left h1 hiq,
      mul_le_mul_of_nonneg_left h2 hoq]

/-- C1 witness: a model absent from the Google table, one input token —
the cost is the spec formula's value and is positive. -/
theorem C1_calculate_cost_formula_witness :
    List.lookup "brand-new-model" (pricingTable Provider.google) = none ∧
    0 < calculate_cost Provider.google "brand-new-model" 1 0 :=
  ⟨by decide,
   (C1_calculate_cost_formula Provider.google "brand-new-model" 1 0).2
     (by decide) (by decide) (by decide) (by decide)⟩

/-! ## C2, C3 — unary proxy metering and cache-hit logs -/

/-- On a non-200 upstream status the extraction block is skipped: tokens stay
zero and the model stays the request model. -/
theorem extractedUsage_of_ne_200 (u : Upstream) (m : String)
    (h : u.status ≠ 200) : extractedUsage u m = (0, 0, m) := by
  simp [extractedUsage, h]

/-- C2: for every unary cache-miss proxy request, exactly one usage log row
is inserted iff the upstream status is 200 and the extracted token counts
satisfy `input_tokens > 0 or output_tokens > 0`; a non-200 upstream response
is returned with the same status and body and no usage log is written. -/
theorem C2_unary_log_exactly_once (user_id request_model : String)
    (u : Upstream) (latency_ms : ℚ) :
    ((proxy_openai_unary_miss user_id request_model u latency_ms).logs.length
        = 1 ↔
      u.status = 200 ∧ (0 < (extractedUsage u request_model).1 ∨
        0 < (extractedUsage u request_model).2.1)) ∧
    (u.status ≠ 200 →
      (proxy_openai_unary_miss user_id request_model u
          latency_ms).resp_status = u.status ∧
      (proxy_openai_unary_miss user_id request_model u
          latency_ms).resp_body = u.body ∧
      (proxy_openai_unary_miss user_id request_model u
          latency_ms).logs = []) := by
  constructor
  · by_cases hs : u.status = 200
    · by_cases hc : 0 < (extractedUsage u request_model).1 ∨
          0 < (extractedUsage u request_model).2.1
      · simp [proxy_openai_unary_miss, hs, hc]
      · simp [proxy_openai_unary_miss, hs, hc]
    · have he := extractedUsage_of_ne_200 u request_model hs
      simp [proxy_openai_unary_miss, he, hs]
  · intro hs
    have he := extractedUsage_of_ne_200 u request_model hs
    simp [proxy_openai_unary_miss, he]

/-- C2 witness: a 500 upstream response with body `[1, 2]` is passed through
and writes no log. -/
theorem C2_unary_log_exactly_once_witness :
    (proxy_openai_unary_miss "u1" "gpt-4o"
        (Upstream.mk 500 [1, 2] "application/json" none) 12).resp_status
        = 500 ∧
    (proxy_openai_unary_miss "u1" "gpt-4o"
        (Upstream.mk 500 [1, 2] "application/json" none) 12).resp_body
        = [1, 2] ∧
    (proxy_openai_unary_miss "u1" "gpt-4o"
        (Upstream.mk 500 [1, 2] "application/json" none) 12).logs = [] :=
  (C2_unary_log_exactly_once "u1" "gpt-4o"
    (Upstream.mk 500 [1, 2] "application/json" none) 12).2 (by decide)

/-- C3: for a proxy request served from the cache, the usage log row has
`cache_hit = true`, `cost_usd = 0`, `latency_ms = 0`, and its token counts
and model are the ones the original (miss) call stored in the entry's
metadata; the response contains exactly that one log. -/
theorem C3_cache_hit_log_fields (user_id request_model user2 rm2 : String)
    (u : Upstream) (latency_ms : ℚ) (b : List ℕ) (meta : CacheMetadata)
    (h : (proxy_openai_unary_miss user_id request_model u
      latency_ms).cacheWrite = some (b, meta)) :
    (cacheHitLog user2 rm2 meta).cache_hit = true ∧
    (cacheHitLog user2 rm2 meta).cost_usd = 0 ∧
    (cacheHitLog user2 rm2 meta).latency_ms = 0 ∧
    (cacheHitLog user2 rm2 meta).input_tokens
      = (extractedUsage u request_model).1 ∧
    (cacheHitLog user2 rm2 meta).output_tokens
      = (extractedUsage u request_model).2.1 ∧
    (cacheHitLog user2 rm2 meta).model
      = (extractedUsage u request_model).2.2 ∧
    (cacheHitResult user2 rm2 b meta).logs = [cacheHitLog user2 rm2 meta] := by
  by_cases hc : u.status = 200 ∧ (0 < (extractedUsage u request_model).1 ∨
      0 < (extractedUsage u request_model).2.1)
  · simp only [proxy_openai_unary_miss, hc, if_true] at h
    obtain ⟨-, hmeta⟩ := Prod.mk.injEq .. ▸ Option.some.injEq .. ▸ h
    subst hmeta
    simp [cacheHitLog, cacheHitResult]
  · simp [proxy_openai_unary_miss, hc] at h

/-- C3 witness: a concrete 200 response with 3 input and 5 output tokens;
the cache metadata written on the miss reproduces those values on the hit. -/
theorem C3_cache_hit_log_fields_witness :
    (cacheHitLog "u2" "m2"
        (CacheMetadata.mk (some 3) (some 5) (some "gpt-4o")
          (some (calculate_cost .openai "gpt-4o" 3 5))
          (some "application/json") (some 200))).cache_hit = true ∧
    (cacheHitLog "u2" "m2"
        (CacheMetadata.mk (some 3) (some 5) (some "gpt-4o")
          (some (calculate_cost .openai "gpt-4o" 3 5))
          (some "application/json") (some 200))).cost_usd = 0 ∧
    (cacheHitLog "u2" "m2"
        (CacheMetadata.mk (some 3) (some 5) (some "gpt-4o")
          (some (calculate_cost .openai "gpt-4o" 3 5))
          (some "application/json") (some 200))).latency_ms = 0 ∧
    (cacheHitLog "u2" "m2"
        (CacheMetadata.mk (some 3) (some 5) (some "gpt-4o")
          (some (calculate_cost .openai "gpt-4o" 3 5))
          (some "application/json") (some 200))).input_tokens
      = (extractedUsage
          (Upstream.mk 200 [7] "application/json"
            (some (ResponseJson.mk (some (UsageJson.mk (some 3) (some 5)))
              (some "gpt-4o")))) "gpt-4o").1 ∧
    (cacheHitLog "u2" "m2"
        (CacheMetadata.mk (some 3) (some 5) (some "gpt-4o")
          (some (calculate_cost .openai "gpt-4o" 3 5))
          (some "application/json") (some 200))).output_tokens
      = (extractedUsage
          (Upstream.mk 200 [7] "application/json"
            (some (ResponseJson.mk (some (UsageJson.mk (some 3) (some 5)))
              (some "gpt-4o")))) "gpt-4o").2.1 ∧
    (cacheHitLog "u2" "m2"
        (CacheMetadata.mk (some 3) (some 5) (some "gpt-4o")
          (some (calculate_cost .openai "gpt-4o" 3 5))
          (some "application/json") (some 200))).model
      = (extractedUsage
          (Upstream.mk 200 [7] "application/json"
            (some (ResponseJson.mk (some (UsageJson.mk (some 3) (some 5)))
              (some "gpt-4o")))) "gpt-4o").2.2 ∧
    (cacheHitResult "u2" "m2" [7]
        (CacheMetadata.mk (some 3) (some 5) (some "gpt-4o")
          (some (calculate_cost .openai "gpt-4o" 3 5))
          (some "application/json") (some 200))).logs
      = [cacheHitLog "u2" "m2"
          (CacheMetadata.mk (some 3) (some 5) (some "gpt-4o")
            (some (calculate_cost .openai "gpt-4o" 3 5))
            (some "application/json") (some 200))] :=
  C3_cache_hit_log_fields "u1" "gpt-4o" "u2" "m2"
    (Upstream.mk 200 [7] "application/json"
      (some (ResponseJson.mk (some (UsageJson.mk (some 3) (some 5)))
        (some "gpt-4o")))) 12 [7]
    (CacheMetadata.mk (some 3) (some 5) (some "gpt-4o")
      (some (calculate_cost .openai "gpt-4o" 3 5))
      (some "application/json") (some 200)) rfl

/-! ## C4 — cache key -/

/-- The hex encoding of a byte list has twice its length. -/
theorem pyBytesHex_length (l : List ℕ) :
    (pyBytesHex l).length = 2 * l.length := by
  induction l with
  | nil => rfl
  | cons x xs ih =>
    simp only [pyBytesHex, List.flatMap_cons] at *
    simp [ih]
    omega

/-- A SHA-256 digest is 32 bytes. -/
theorem sha256_length (msg : List ℕ) : (sha256 msg).length = 32 := by
  simp [sha256, wordBytes]

/-- C4 counterexample: for provider `"openai"` and the one-byte body `0x00`,
the key the code computes differs from the SHA-256 digest of
`provider ‖ ':' ‖ body_bytes` — the code hashes the ASCII hex encoding of the
body, not the raw bytes. -/
theorem C4_cache_key_counterexample :
    make_key (asciiBytes "openai") [0]
      ≠ claimCacheKey (asciiBytes "openai") [0] := by
  decide

/-- C4 (amended): the cache key equals the SHA-256 hex digest of
`provider ‖ ':' ‖ hex(body_bytes)` — the provider name, a colon, then the
lowercase ASCII hex encoding of the raw request-body bytes (Python
`body.hex()`); the key is always 64 hex characters, and two identical
`(provider, body)` pairs always produce identical keys. -/
theorem C4_cache_key_hex_of_body (provider body : List ℕ) :
    make_key provider body
      = sha256hex (provider ++ [58] ++ pyBytesHex body) ∧
    (make_key provider body).length = 64 ∧
    (∀ p2 b2, provider = p2 → body = b2 →
      make_key provider body = make_key p2 b2) := by
  refine ⟨rfl, ?_, ?_⟩
  · show (pyBytesHex (sha256 _)).length = 64
    rw [pyBytesHex_length, sha256_length]
  · intro p2 b2 hp hb
    rw [hp, hb]

/-- C4 witness: the amended statement at provider `"openai"`, body `[0]`. -/
theorem C4_cache_key_hex_of_body_witness :
    make_key (asciiBytes "openai") [0]
      = sha256hex (asciiBytes "openai" ++ [58] ++ pyBytesHex [0]) ∧
    (make_key (asciiBytes "openai") [0]).length = 64 ∧
    make_key (asciiBytes "openai") [0] = make_key (asciiBytes "openai") [0] :=
  ⟨(C4_cache_key_hex_of_body (asciiBytes "openai") [0]).1,
   (C4_cache_key_hex_of_body (asciiBytes "openai") [0]).2.1,
   (C4_cache_key_hex_of_body (asciiBytes "openai") [0]).2.2
     (asciiBytes "openai") [0] rfl rfl⟩

/-! ## C8 — token surge threshold -/

/-- In the counterexample's window — 14 zero-filled daily totals of 1 token —
the 13-day history has mean exactly 1. -/
theorem meanQ_replicate_14_ones :
    meanQ (tokenSurgeHist (List.replicate 14 1)) = 1 := by
  have hh : tokenSurgeHist (List.replicate 14 1)
      = List.replicate 13 (1 : ℤ) := by decide
  rw [hh]
  unfold meanQ
  norm_num [List.sum_replicate]

/-- C8 counterexample: 13 historical days of 1 token each (mean 1) and 3
tokens today give a ratio of exactly 3, which the claim says emits the
anomaly — but the code's strict `today_tokens > mean_tokens * 3` does not
emit. -/
theorem C8_token_surge_counterexample :
    tokenSurgeHist (List.replicate 14 1) ≠ [] ∧
    0 < meanQ (tokenSurgeHist (List.replicate 14 1)) ∧
    ((3 : ℤ) : ℚ) / meanQ (tokenSurgeHist (List.replicate 14 1)) = 3 ∧
    token_surge (List.replicate 14 1) 3 = none := by
  refine ⟨by decide, ?_, ?_, ?_⟩
  · rw [meanQ_replicate_14_ones]; norm_num
  · rw [meanQ_replicate_14_ones]; norm_num
  · unfold token_surge
    rw [if_pos (by decide : tokenSurgeHist (List.replicate 14 1) ≠ [])]
    rw [if_neg]
    rw [meanQ_replicate_14_ones]
    norm_num

/-- C8 (amended): with nonempty history and a positive historical mean, the
token-surge anomaly (severity info) is emitted iff
`today_tokens / mean_tokens` is strictly greater than 3; a ratio of exactly
3 does not emit. -/
theorem C8_token_surge_strict (token_values : List ℤ) (today_tokens : ℤ)
    (hne : tokenSurgeHist token_values ≠ [])
    (hmean : 0 < meanQ (tokenSurgeHist token_values)) :
    token_surge token_values today_tokens = some "info" ↔
      3 < (today_tokens : ℚ) / meanQ (tokenSurgeHist token_values) := by
  rw [lt_div_iff₀ hmean]
  unfold token_surge
  rw [if_pos hne]
  constructor
  · intro hs
    by_cases h : 0 < meanQ (tokenSurgeHist token_values) ∧
        meanQ (tokenSurgeHist token_values) * 3 < (today_tokens : ℚ)
    · linarith [h.2]
    · rw [if_neg h] at hs
      exact Option.noConfusion hs
  · intro h3
    rw [if_pos ⟨hmean, by linarith⟩]

/-- C8 witness: 13 historical days of 1 token, 4 tokens today (ratio 4 > 3)
emits the info anomaly. -/
theorem C8_token_surge_strict_witness :
    token_surge (List.replicate 14 1) 4 = some "info" := by
  refine (C8_token_surge_strict (List.replicate 14 1) 4 (by decide) ?_).2 ?_
  · rw [meanQ_replicate_14_ones]; norm_num
  · rw [meanQ_replicate_14_ones]; norm_num

/-! ## C9 — logs sort fallback -/

/-- `List.lookup` misses any key absent from the association list's keys. -/
theorem lookup_eq_none_of_not_mem_keys {α β : Type} [BEq α] [LawfulBEq α]
    (l : List (α × β)) (a : α) (h : ∀ p ∈ l, p.1 ≠ a) :
    List.lookup a l = none := by
  induction l with
  | nil => rfl
  | cons hd tl ih =>
    have hne : (a == hd.1) = false := by
      refine beq_eq_false_iff_ne.mpr ?_
      exact fun hcontra => h hd (List.mem_cons_self hd tl) hcontra.symm
    obtain ⟨k, v⟩ := hd
    simp only [List.lookup]
    rw [hne]
    exact ih fun p hp => h p (List.mem_cons_of_mem _ hp)

/-- C9 counterexample: for the non-whitelisted sort field `"bogus"` with
`sort_order = "asc"`, the code sorts by created_at ascending, not the
claimed created_at descending. -/
theorem C9_sort_fallback_counterexample :
    (∀ p ∈ ALLOWED_SORT_FIELDS, p.1 ≠ "bogus") ∧
    resolveSort "bogus" "asc" = (.created_at, .asc) ∧
    resolveSort "bogus" "asc" ≠ (.created_at, .desc) := by
  refine ⟨?_, ?_, ?_⟩
  · decide
  · decide
  · decide

/-- C9 (amended): a sort_by value outside the whitelist falls back to the
created_at column, but the caller's sort_order is still honoured: the page is
ordered by created_at ascending when `sort_order == "asc"` and by created_at
descending for every other sort_order value. -/
theorem C9_sort_fallback (sort_by sort_order : String)
    (h : ∀ p ∈ ALLOWED_SORT_FIELDS, p.1 ≠ sort_by) :
    resolveSort sort_by sort_order
      = (.created_at, if sort_order = "asc" then .asc else .desc) ∧
    (sort_order ≠ "asc" →
      resolveSort sort_by sort_order = (.created_at, .desc)) := by
  have hnone : List.lookup sort_by ALLOWED_SORT_FIELDS = none :=
    lookup_eq_none_of_not_mem_keys _ _ h
  constructor
  · simp [resolveSort, hnone]
  · intro ho
    simp [resolveSort, hnone, ho]

/-- C9 witness: the amended statement at sort_by `"bogus"`,
sort_order `"upward"`. -/
theorem C9_sort_fallback_witness :
    resolveSort "bogus" "upward"
      = (.created_at, if "upward" = "asc" then .asc else .desc) ∧
    resolveSort "bogus" "upward" = (.created_at, .desc) :=
  ⟨(C9_sort_fallback "bogus" "upward" (by decide)).1,
   (C9_sort_fallback "bogus" "upward" (by decide)).2 (by decide)⟩

/-! ## C10 — zero-amount budgets -/

/-- A fold whose step fixes every accumulator is the identity. -/
theorem foldl_id_of_mem {α β : Type} (g : α → β → α) (l : List β)
    (h : ∀ acc b, b ∈ l → g acc b = acc) :
    ∀ init, l.foldl g init = init := by
  induction l with
  | nil => intro init; rfl
  | cons x xs ih =>
    intro init
    rw [List.foldl_cons, h init x (List.mem_cons_self x xs)]
    exact ih (fun acc b hb => h acc b (List.mem_cons_of_mem x hb)) init

/-- The guarded percentage of a zero-or-negative budget is 0. -/
theorem budgetPct_of_nonpos (spend amount : ℚ) (h : amount ≤ 0) :
    budgetPct spend amount = 0 := by
  unfold budgetPct
  rw [if_neg (not_lt.mpr h)]

/-- C10 counterexample: a budget with `amount_usd = 0` and
`alert_threshold = 0` (the schema allows a threshold of 0) is reported as
`warning` by the budgets endpoint, not `ok`, and the watcher computes a
`budget_warning` status for it — with a matching webhook it fires. -/
theorem C10_zero_amount_counterexample :
    budgetPct 50 0 = 0 ∧
    budgetEndpointStatus (budgetPct 50 0) 0 = .warning ∧
    alertStatusOf (budgetPct 50 0) 0 = some .budget_warning ∧
    check_and_fire_alerts "u" [Budget.mk "bz" "u" 0 0] 50
        [Webhook.mk "wz" "u" "http://zero" "budget_warning" true]
        (fun _ => true) []
      = ([AlertDispatch.mk ("u", "bz", .budget_warning) "http://zero"],
         [("u", "bz", .budget_warning)]) := by
  have hpct : budgetPct 50 0 = 0 := budgetPct_of_nonpos 50 0 le_rfl
  have hst : alertStatusOf (budgetPct 50 0) 0 = some .budget_warning := by
    rw [hpct]
    unfold alertStatusOf
    norm_num
  refine ⟨hpct, ?_, hst, ?_⟩
  · rw [hpct]
    unfold budgetEndpointStatus
    norm_num
  · unfold check_and_fire_alerts
    rw [if_neg (by simp), if_neg (by simp)]
    simp only [List.foldl_cons, List.foldl_nil, alertBudgetStep, hst]
    simp [AlertStatus.name]

/-- C10 (amended): for every budget with `amount_usd ≤ 0` the percentage
computation is guarded to 0 (no division), the budget can never reach
`exceeded`, and — provided its alert threshold is positive — the endpoint
reports `ok` and the watcher fires nothing; an entire watcher invocation
over such budgets dispatches nothing and leaves the fired set unchanged. -/
theorem C10_zero_amount_guard :
    (∀ spend amount threshold : ℚ, amount ≤ 0 →
      budgetPct spend amount = 0 ∧
      budgetEndpointStatus (budgetPct spend amount) threshold ≠ .exceeded ∧
      alertStatusOf (budgetPct spend amount) threshold
        ≠ some .budget_exceeded ∧
      (0 < threshold →
        budgetEndpointStatus (budgetPct spend amount) threshold = .ok ∧
        alertStatusOf (budgetPct spend amount) threshold = none)) ∧
    (∀ (uid : String) (budgets : List Budget) (spend : ℚ)
        (webhooks : List Webhook) (f : String → Bool)
        (fired : List FiredKey),
      (∀ b ∈ budgets, b.amount_usd ≤ 0 ∧ 0 < b.alert_threshold) →
      check_and_fire_alerts uid budgets spend webhooks f fired
        = ([], fired)) := by
  constructor
  · intro spend amount threshold h
    have hpct := budgetPct_of_nonpos spend amount h
    rw [hpct]
    refine ⟨rfl, ?_, ?_, ?_⟩
    · unfold budgetEndpointStatus
      rw [if_neg (by norm_num)]
      split_ifs <;> simp
    · unfold alertStatusOf
      rw [if_neg (by norm_num)]
      split_ifs <;> simp
    · intro ht
      unfold budgetEndpointStatus alertStatusOf
      rw [if_neg (by norm_num), if_neg (not_le.mpr ht),
        if_neg (by norm_num), if_neg (not_le.mpr ht)]
      exact ⟨rfl, rfl⟩
  · intro uid budgets spend webhooks f fired hb
    unfold check_and_fire_alerts
    by_cases h1 : budgets = []
    · rw [if_pos h1]
    · rw [if_neg h1]
      by_cases h2 : webhooks.filter (fun w => w.is_active) = []
      · rw [if_pos h2]
      · rw [if_neg h2]
        apply foldl_id_of_mem
        intro acc b hbmem
        obtain ⟨hamt, hthr⟩ := hb b hbmem
        have hst : alertStatusOf (budgetPct spend b.amount_usd)
            b.alert_threshold = none := by
          rw [budgetPct_of_nonpos _ _ hamt]
          unfold alertStatusOf
          rw [if_neg (by norm_num), if_neg (not_le.mpr hthr)]
        unfold alertBudgetStep
        rw [hst]

/-- C10 witness: amount 0, threshold 30, spend 50 — pct 0, endpoint ok,
watcher silent; a one-budget invocation dispatches nothing. -/
theorem C10_zero_amount_guard_witness :
    budgetPct 50 0 = 0 ∧
    budgetEndpointStatus (budgetPct 50 0) 30 = .ok ∧
    alertStatusOf (budgetPct 50 0) 30 = none ∧
    check_and_fire_alerts "u" [Budget.mk "bz" "u" 0 30] 50
        [Webhook.mk "wz" "u" "http://zero" "budget_warning" true]
        (fun _ => true) [] = ([], []) :=
  ⟨(C10_zero_amount_guard.1 50 0 30 (by norm_num)).1,
   ((C10_zero_amount_guard.1 50 0 30 (by norm_num)).2.2.2 (by norm_num)).1,
   ((C10_zero_amount_guard.1 50 0 30 (by norm_num)).2.2.2 (by norm_num)).2,
   C10_zero_amount_guard.2 "u" [Budget.mk "bz" "u" 0 30] 50
     [Webhook.mk "wz" "u" "http://zero" "budget_warning" true]
     (fun _ => true) []
     (by intro b hb; simp at hb; subst hb; exact ⟨le_rfl, by norm_num⟩)⟩

/-! ## C6, C7 — budget webhook dedup and delivery failures -/

/-- A fold preserves any invariant its step preserves. -/
theorem foldl_preserves {α β : Type} (g : α → β → α) (P : α → Prop)
    (hstep : ∀ acc b, P acc → P (g acc b)) :
    ∀ (l : List β) (init : α), P init → P (l.foldl g init) := by
  intro l
  induction l with
  | nil => intro init h; exact h
  | cons x xs ih =>
    intro init h
    rw [List.foldl_cons]
    exact ih (g init x) (hstep init x h)

/-- One budget step of the watcher: the fired set only grows, every dispatch
in the accumulator has its tuple in the fired set, and no dispatched tuple
was in the incoming set `fired`. -/
theorem alertBudgetStep_inv (uid : String) (spend : ℚ)
    (aw : List Webhook) (fired : List FiredKey)
    (acc : List AlertDispatch × List FiredKey) (b : Budget)
    (h : fired ⊆ acc.2 ∧ ∀ d ∈ acc.1, d.key ∈ acc.2 ∧ d.key ∉ fired) :
    fired ⊆ (alertBudgetStep uid spend aw acc b).2 ∧
      ∀ d ∈ (alertBudgetStep uid spend aw acc b).1,
        d.key ∈ (alertBudgetStep uid spend aw acc b).2 ∧ d.key ∉ fired := by
  obtain ⟨hf, hd⟩ := h
  unfold alertBudgetStep
  cases hst : alertStatusOf (budgetPct spend b.amount_usd)
      b.alert_threshold with
  | none => exact ⟨hf, hd⟩
  | some st =>
    by_cases hmem : (uid, b.id, st) ∈ acc.2
    · simp only [if_pos hmem]
      exact ⟨hf, hd⟩
    · simp only [if_neg hmem]
      constructor
      · exact fun x hx => List.mem_cons_of_mem _ (hf hx)
      · intro d hdmem
        rw [List.mem_append] at hdmem
        cases hdmem with
        | inl h1 =>
          obtain ⟨h2, h3⟩ := hd d h1
          exact ⟨List.mem_cons_of_mem _ h2, h3⟩
        | inr h2 =>
          obtain ⟨w, hw, rfl⟩ := List.mem_map.mp h2
          exact ⟨List.mem_cons_self _ _, fun hcontra => hmem (hf hcontra)⟩

/-- One watcher invocation: the fired set only grows, every dispatched POST's
tuple lands in the outgoing fired set, and none of them was in the incoming
set. -/
theorem check_and_fire_alerts_inv (uid : String) (budgets : List Budget)
    (spend : ℚ) (webhooks : List Webhook) (f : String → Bool)
    (fired : List FiredKey) :
    fired ⊆ (check_and_fire_alerts uid budgets spend webhooks f fired).2 ∧
      ∀ d ∈ (check_and_fire_alerts uid budgets spend webhooks f fired).1,
        d.key ∈ (check_and_fire_alerts uid budgets spend webhooks f
          fired).2 ∧ d.key ∉ fired := by
  unfold check_and_fire_alerts
  by_cases h1 : budgets = []
  · rw [if_pos h1]
    refine ⟨List.Subset.refl _, ?_⟩
    intro d hd
    exact absurd hd (List.not_mem_nil d)
  · rw [if_neg h1]
    by_cases h2 : webhooks.filter (fun w => w.is_active) = []
    · rw [if_pos h2]
      refine ⟨List.Subset.refl _, ?_⟩
      intro d hd
      exact absurd hd (List.not_mem_nil d)
    · rw [if_neg h2]
      refine foldl_preserves _
        (fun acc : List AlertDispatch × List FiredKey =>
          fired ⊆ acc.2 ∧ ∀ d ∈ acc.1, d.key ∈ acc.2 ∧ d.key ∉ fired)
        (fun acc b hacc => alertBudgetStep_inv uid spend _ fired acc b hacc)
        budgets ([], fired) ⟨List.Subset.refl _, ?_⟩
      intro d hd
      exact absurd hd (List.not_mem_nil d)

/-- Across a sequence of watcher invocations, the number of invocations that
dispatch a POST for the tuple `k` is at most 1 — and 0 when `k` is already
in the fired set. -/
theorem runAlerts_countP_le (k : FiredKey) (calls : List AlertCall) :
    ∀ fired : List FiredKey,
      ((runAlerts calls fired).1.countP (fun ds => firesKey ds k))
        ≤ (if k ∈ fired then 0 else 1) := by
  induction calls with
  | nil =>
    intro fired
    simp only [runAlerts, List.countP_nil]
    split_ifs <;> omega
  | cons c cs ih =>
    intro fired
    obtain ⟨hmono, hdisp⟩ := check_and_fire_alerts_inv c.user_id c.budgets
      c.current_spend c.webhooks c.deliveryOk fired
    simp only [runAlerts, List.countP_cons]
    have hrest := ih (check_and_fire_alerts c.user_id c.budgets
      c.current_spend c.webhooks c.deliveryOk fired).2
    by_cases hfires : firesKey (check_and_fire_alerts c.user_id c.budgets
        c.current_spend c.webhooks c.deliveryOk fired).1 k = true
    · obtain ⟨d, hdmem, hdk⟩ := List.any_eq_true.mp hfires
      have hdk' : d.key = k := by simpa using hdk
      obtain ⟨hin, hnotin⟩ := hdisp d hdmem
      rw [hdk'] at hin hnotin
      rw [if_pos hin] at hrest
      rw [if_neg hnotin]
      split_ifs
      omega
    · split_ifs with hc
      · rw [if_pos (hmono hc)] at hrest
        omega
      · split_ifs at hrest <;> omega

/-- C6: within one process lifetime (an arbitrary sequence of watcher
invocations starting from the empty fired set), webhooks for a fixed
`(tenant_id, budget_id, status)` tuple are dispatched during at most one
invocation; and for positive budget amounts the status is `budget_exceeded`
when `spend / amount * 100 >= 100`, `budget_warning` when that percentage is
below 100 but at least the alert threshold, and nothing fires otherwise. -/
theorem C6_alert_fires_at_most_once :
    (∀ (calls : List AlertCall) (k : FiredKey),
      ((runAlerts calls []).1.countP (fun ds => firesKey ds k)) ≤ 1) ∧
    (∀ spend amount threshold : ℚ, 0 < amount →
      budgetPct spend amount = spend / amount * 100 ∧
      (100 ≤ spend / amount * 100 →
        alertStatusOf (budgetPct spend amount) threshold
          = some .budget_exceeded) ∧
      (spend / amount * 100 < 100 → threshold ≤ spend / amount * 100 →
        alertStatusOf (budgetPct spend amount) threshold
          = some .budget_warning) ∧
      (spend / amount * 100 < 100 → spend / amount * 100 < threshold →
        alertStatusOf (budgetPct spend amount) threshold = none)) := by
  constructor
  · intro calls k
    have h := runAlerts_countP_le k calls []
    simpa using h
  · intro spend amount threshold hpos
    have hpct : budgetPct spend amount = spend / amount * 100 := by
      unfold budgetPct
      rw [if_pos hpos]
    refine ⟨hpct, ?_, ?_, ?_⟩
    · intro h
      rw [hpct]
      unfold alertStatusOf
      rw [if_pos h]
    · intro h1 h2
      rw [hpct]
      unfold alertStatusOf
      rw [if_neg (not_le.mpr h1), if_pos h2]
    · intro h1 h2
      rw [hpct]
      unfold alertStatusOf
      rw [if_neg (not_le.mpr h1), if_neg (not_le.mpr h2)]

/-- C6 witness: one concrete invocation (spend 85 of a 100 budget with an 80
threshold) fires at most once, and the 85 % case is a warning. -/
theorem C6_alert_fires_at_most_once_witness :
    ((runAlerts [AlertCall.mk "u" [Budget.mk "b1" "u" 100 80] 85
        [Webhook.mk "w1" "u" "http://x" "budget_warning" true]
        (fun _ => true)] []).1.countP
      (fun ds => firesKey ds ("u", "b1", AlertStatus.budget_warning))) ≤ 1 ∧
    budgetPct 85 100 = 85 / 100 * 100 ∧
    alertStatusOf (budgetPct 85 100) 80 = some .budget_warning :=
  ⟨C6_alert_fires_at_most_once.1 _ _,
   (C6_alert_fires_at_most_once.2 85 100 80 (by norm_num)).1,
   (C6_alert_fires_at_most_once.2 85 100 80 (by norm_num)).2.2.1
     (by norm_num) (by norm_num)⟩

/-- C7 counterexample: a watcher invocation in which every matching webhook
delivery fails (the outcome oracle is constantly `false`) still records the
`(tenant, budget, status)` tuple in the fired set — the claim says a tuple
whose deliveries all failed is not recorded. -/
theorem C7_failed_delivery_counterexample :
    check_and_fire_alerts "u" [Budget.mk "b1" "u" 100 80] 85
        [Webhook.mk "w1" "u" "http://x" "budget_warning" true]
        (fun _ => false) []
      = ([AlertDispatch.mk ("u", "b1", .budget_warning) "http://x"],
         [("u", "b1", .budget_warning)]) := by
  have hst : alertStatusOf (budgetPct 85 100) 80
      = some .budget_warning := by
    have hpct : budgetPct 85 100 = 85 / 100 * 100 := by
      unfold budgetPct
      rw [if_pos (by norm_num)]
    rw [hpct]
    unfold alertStatusOf
    rw [if_neg (by norm_num), if_pos (by norm_num)]
  unfold check_and_fire_alerts
  rw [if_neg (by simp), if_neg (by simp)]
  simp only [List.foldl_cons, List.foldl_nil, alertBudgetStep, hst]
  simp [AlertStatus.name]

/-- C7 (amended): webhook delivery outcomes never influence the watcher — a
delivery failure is swallowed (the result is identical under any outcome
oracle, so it cannot propagate to the originating request); the fired set
only grows; and the `(tenant, budget, status)` tuple of every dispatched
POST is recorded in the fired set regardless of delivery outcomes (even
when every delivery failed). -/
theorem C7_failure_nonfatal_always_recorded (uid : String)
    (budgets : List Budget) (spend : ℚ) (webhooks : List Webhook)
    (f g : String → Bool) (fired : List FiredKey) :
    check_and_fire_alerts uid budgets spend webhooks f fired
      = check_and_fire_alerts uid budgets spend webhooks g fired ∧
    fired ⊆ (check_and_fire_alerts uid budgets spend webhooks f fired).2 ∧
    ∀ d ∈ (check_and_fire_alerts uid budgets spend webhooks f fired).1,
      d.key ∈ (check_and_fire_alerts uid budgets spend webhooks f
        fired).2 :=
  ⟨rfl,
   (check_and_fire_alerts_inv uid budgets spend webhooks f fired).1,
   fun d hd =>
     ((check_and_fire_alerts_inv uid budgets spend webhooks f
       fired).2 d hd).1⟩

/-- C7 witness: the concrete all-deliveries-fail invocation — the result is
identical to the all-deliveries-succeed one, and the dispatched POST's tuple
is recorded in the fired set. -/
theorem C7_failure_nonfatal_always_recorded_witness :
    check_and_fire_alerts "u" [Budget.mk "b1" "u" 100 80] 85
        [Webhook.mk "w1" "u" "http://x" "budget_warning" true]
        (fun _ => false) []
      = check_and_fire_alerts "u" [Budget.mk "b1" "u" 100 80] 85
          [Webhook.mk "w1" "u" "http://x" "budget_warning" true]
          (fun _ => true) [] ∧
    (AlertDispatch.mk ("u", "b1", .budget_warning) "http://x").key
      ∈ (check_and_fire_alerts "u" [Budget.mk "b1" "u" 100 80] 85
          [Webhook.mk "w1" "u" "http://x" "budget_warning" true]
          (fun _ => false) []).2 := by
  have hfst : (check_and_fire_alerts "u" [Budget.mk "b1" "u" 100 80] 85
      [Webhook.mk "w1" "u" "http://x" "budget_warning" true]
      (fun _ => false) []).1
      = [AlertDispatch.mk ("u", "b1", .budget_warning) "http://x"] := by
    have hst : alertStatusOf (budgetPct 85 100) 80
        = some .budget_warning := by
      have hpct : budgetPct 85 100 = 85 / 100 * 100 := by
        unfold budgetPct
        rw [if_pos (by norm_num)]
      rw [hpct]
      unfold alertStatusOf
      rw [if_neg (by norm_num), if_pos (by norm_num)]
    unfold check_and_fire_alerts
    rw [if_neg (by simp), if_neg (by simp)]
    simp only [List.foldl_cons, List.foldl_nil, alertBudgetStep, hst]
    simp [AlertStatus.name]
  refine ⟨(C7_failure_nonfatal_always_recorded "u"
      [Budget.mk "b1" "u" 100 80] 85
      [Webhook.mk "w1" "u" "http://x" "budget_warning" true]
      (fun _ => false) (fun _ => true) []).1, ?_⟩
  exact (C7_failure_nonfatal_always_recorded "u"
    [Budget.mk "b1" "u" 100 80] 85
    [Webhook.mk "w1" "u" "http://x" "budget_warning" true]
    (fun _ => false) (fun _ => true) []).2.2 _
    (by rw [hfst]; exact List.mem_singleton_self _)

/-! ## C5 — at most one active credential per (tenant, provider) -/

/-- Deactivating a row can only shrink an active-credential filter. -/
theorem deactivateFirst_filter_length_le (db : List ApiKey)
    (u kid t q : String) :
    ((deactivateFirst db u kid).filter (activeCredPred t q)).length
      ≤ (db.filter (activeCredPred t q)).length := by
  induction db with
  | nil => simp [deactivateFirst]
  | cons k rest ih =>
    unfold deactivateFirst
    by_cases hc : (k.id == kid && k.user_id == u) = true
    · rw [if_pos hc]
      have hflip : activeCredPred t q { k with is_active := false }
          = false := by
        simp [activeCredPred]
      have h1 : List.filter (activeCredPred t q)
          ({ k with is_active := false } :: rest)
          = List.filter (activeCredPred t q) rest := by
        rw [List.filter_cons, hflip]
        simp
      rw [h1, List.filter_cons]
      split_ifs with hk
      · simp only [List.length_cons]
        omega
      · omega
    · rw [if_neg hc]
      simp only [List.filter_cons]
      split_ifs with hk
      · simp only [List.length_cons]
        omega
      · exact ih

/-- After deactivating the unique row with the deleted credential's id, every
row that still carries that id is inactive. -/
theorem deactivateFirst_inactive :
    ∀ (db : List ApiKey) (u : String) (k : ApiKey), k ∈ db →
      k.user_id = u → db.Pairwise (fun a b => a.id ≠ b.id) →
      ∀ r ∈ deactivateFirst db u k.id, r.id = k.id →
        r.is_active = false := by
  intro db
  induction db with
  | nil =>
    intro u k hk
    exact absurd hk (List.not_mem_nil k)
  | cons x rest ih =>
    intro u k hk hu hp r hr hrid
    rw [List.pairwise_cons] at hp
    unfold deactivateFirst at hr
    by_cases hc : (x.id == k.id && x.user_id == u) = true
    · rw [if_pos hc] at hr
      rcases List.mem_cons.mp hr with rfl | hr2
      · rfl
      · have hxid : x.id = k.id := by
          rw [Bool.and_eq_true] at hc
          exact beq_iff_eq.mp hc.1
        exact absurd (hxid.trans hrid.symm) (hp.1 r hr2)
    · rw [if_neg hc] at hr
      rcases List.mem_cons.mp hk with rfl | hk2
      · exact absurd (by simp [hu]) hc
      · rcases List.mem_cons.mp hr with rfl | hr2
        · exact absurd hrid (hp.1 k hk2)
        · exact ih u k hk2 hu hp.2 r hr2 hrid

/-- After deactivating the deleted credential's row, no row passes the proxy
lookup's filter for that credential's proxy key. -/
theorem deactivateFirst_no_lookup_match :
    ∀ (db : List ApiKey) (u : String) (k : ApiKey), k ∈ db →
      k.user_id = u → db.Pairwise (fun a b => a.id ≠ b.id) →
      db.Pairwise (fun a b => a.proxy_key ≠ b.proxy_key) →
      ∀ r ∈ deactivateFirst db u k.id, r.proxy_key = k.proxy_key →
        r.is_active = false := by
  intro db
  induction db with
  | nil =>
    intro u k hk
    exact absurd hk (List.not_mem_nil k)
  | cons x rest ih =>
    intro u k hk hu hpid hppk r hr hrpk
    rw [List.pairwise_cons] at hpid hppk
    unfold deactivateFirst at hr
    by_cases hc : (x.id == k.id && x.user_id == u) = true
    · rw [if_pos hc] at hr
      rcases List.mem_cons.mp hr with rfl | hr2
      · rfl
      · rcases List.mem_cons.mp hk with rfl | hk2
        · exact absurd hrpk (Ne.symm (hppk.1 r hr2))
        · have hxid : x.id = k.id := by
            rw [Bool.and_eq_true] at hc
            exact beq_iff_eq.mp hc.1
          exact absurd hxid (hpid.1 k hk2)
    · rw [if_neg hc] at hr
      rcases List.mem_cons.mp hk with rfl | hk2
      · exact absurd (by simp [hu]) hc
      · rcases List.mem_cons.mp hr with rfl | hr2
        · exact absurd hrpk (hppk.1 k hk2)
        · exact ih u k hk2 hu hpid.2 hppk.2 r hr2 hrpk

/-- C5: at most one active credential per (tenant, provider): creating a
credential fails with 400 Conflict while an active one exists; creating when
none exists preserves the invariant; deleting (deactivating) preserves the
invariant; and a successful delete flips the row's active flag to false,
after which its proxy key fails lookup with 401. -/
theorem C5_one_active_credential :
    (∀ (db : List ApiKey) (u p nid npk ek : String),
      (∃ k ∈ db, activeCredPred u p k) →
      create_api_key db u p nid npk ek = .error 400) ∧
    (∀ (db : List ApiKey) (u p nid npk ek : String)
        (res : List ApiKey × ApiKey),
      activeCredInvariant db →
      create_api_key db u p nid npk ek = .ok res →
      activeCredInvariant res.1) ∧
    (∀ (db : List ApiKey) (u kid : String),
      activeCredInvariant db →
      activeCredInvariant (deactivateFirst db u kid)) ∧
    (∀ (db : List ApiKey) (u : String) (k : ApiKey),
      k ∈ db → k.user_id = u →
      db.Pairwise (fun a b => a.id ≠ b.id) →
      db.Pairwise (fun a b => a.proxy_key ≠ b.proxy_key) →
      delete_api_key db u k.id = .ok (deactivateFirst db u k.id) ∧
      (∀ r ∈ deactivateFirst db u k.id, r.id = k.id →
        r.is_active = false) ∧
      get_api_key_by_proxy (deactivateFirst db u k.id) k.proxy_key
        k.provider = .error 401) := by
  refine ⟨?_, ?_, ?_, ?_⟩
  · intro db u p nid npk ek hex
    obtain ⟨k, hk, hpred⟩ := hex
    unfold create_api_key
    cases hfind : db.find? (activeCredPred u p) with
    | none => exact absurd hpred (List.find?_eq_none.mp hfind k hk)
    | some _ => rfl
  · intro db u p nid npk ek res hinv hok
    unfold create_api_key at hok
    cases hfind : db.find? (activeCredPred u p) with
    | some _ =>
      rw [hfind] at hok
      exact absurd hok (by simp)
    | none =>
      rw [hfind] at hok
      injection hok with hres
      rw [← hres]
      intro t q
      rw [List.filter_append]
      by_cases hm : activeCredPred t q
          (ApiKey.mk nid u p ek npk true) = true
      · have htq : u = t ∧ p = q := by
          simp only [activeCredPred, Bool.and_eq_true, beq_iff_eq] at hm
          exact ⟨hm.1.1, hm.1.2⟩
        obtain ⟨rfl, rfl⟩ := htq
        have h0 : db.filter (activeCredPred u p) = [] :=
          List.filter_eq_nil_iff.mpr (List.find?_eq_none.mp hfind)
        rw [h0]
        simp [hm]
      · have h1 : List.filter (activeCredPred t q)
            [ApiKey.mk nid u p ek npk true] = [] := by
          simp only [List.filter_cons, hm]
          rfl
        rw [h1, List.append_nil]
        exact hinv t q
  · intro db u kid hinv t q
    exact le_trans (deactivateFirst_filter_length_le db u kid t q)
      (hinv t q)
  · intro db u k hk hu hpid hppk
    refine ⟨?_, deactivateFirst_inactive db u k hk hu hpid, ?_⟩
    · unfold delete_api_key
      cases hfind : db.find? (fun r => r.id == k.id && r.user_id == u) with
      | none =>
        have : (fun r : ApiKey => r.id == k.id && r.user_id == u) k
            = true := by
          simp [hu]
        exact absurd this (List.find?_eq_none.mp hfind k hk)
      | some _ => rfl
    · unfold get_api_key_by_proxy
      cases hfind : (deactivateFirst db u k.id).find?
          (fun r => r.proxy_key == k.proxy_key
            && r.provider == k.provider && r.is_active) with
      | none => rfl
      | some r =>
        have hrmem := List.mem_of_find?_eq_some hfind
        have hrpred := List.find?_some hfind
        simp only [Bool.and_eq_true, beq_iff_eq] at hrpred
        have hractive := deactivateFirst_no_lookup_match db u k hk hu
          hpid hppk r hrmem hrpred.1.1
        rw [hrpred.2] at hractive
        exact absurd hractive (by simp)

/-- C5 witness: a one-credential store — a second create for the same
(tenant, provider) conflicts with 400; deleting the credential succeeds,
leaves it inactive, and its proxy key then fails lookup with 401. -/
theorem C5_one_active_credential_witness :
    create_api_key [ApiKey.mk "id1" "u" "openai" "enc" "pk1" true]
        "u" "openai" "id2" "pk2" "enc2" = .error 400 ∧
    delete_api_key [ApiKey.mk "id1" "u" "openai" "enc" "pk1" true]
        "u" "id1"
      = .ok (deactivateFirst [ApiKey.mk "id1" "u" "openai" "enc" "pk1" true]
          "u" "id1") ∧
    get_api_key_by_proxy
        (deactivateFirst [ApiKey.mk "id1" "u" "openai" "enc" "pk1" true]
          "u" "id1") "pk1" "openai" = .error 401 :=
  ⟨C5_one_active_credential.1 [ApiKey.mk "id1" "u" "openai" "enc" "pk1" true]
      "u" "openai" "id2" "pk2" "enc2"
      ⟨ApiKey.mk "id1" "u" "openai" "enc" "pk1" true, by simp,
        by simp [activeCredPred]⟩,
   (C5_one_active_credential.2.2.2
      [ApiKey.mk "id1" "u" "openai" "enc" "pk1" true] "u"
      (ApiKey.mk "id1" "u" "openai" "enc" "pk1" true) (by simp) rfl
      (by simp) (by simp)).1,
   (C5_one_active_credential.2.2.2
      [ApiKey.mk "id1" "u" "openai" "enc" "pk1" true] "u"
      (ApiKey.mk "id1" "u" "openai" "enc" "pk1" true) (by simp) rfl
      (by simp) (by simp)).2.2⟩

end LLMLab
